import Mathlib

/-!
Verification of the phone-linked OAuth credential broker
(`src/database.py`, `src/whatsapp_auth.py`, `src/phone_based_auth.py`,
`src/auth_web.py`, `src/gmail_service.py`).

The durable store is modelled as explicit Lean data; timestamps are
natural numbers (seconds), so the 15-minute link-token lifetime is 900.
Each definition is a shallow embedding of the Python function named in
its doc comment.
-/

namespace GmailBroker

/-- Row of the `auth_tokens` table created in `Database.create_tables`:
`auth_token VARCHAR UNIQUE`, `phone_number`, `used BOOLEAN DEFAULT FALSE`,
`created_at`, `expires_at` (default `created_at + 15 minutes`).
The `updated_at` column is not modelled (it is never read). -/
structure AuthTokenRow where
  auth_token : String
  phone_number : String
  used : Bool
  created_at : Nat
  expires_at : Nat
  deriving DecidableEq, Repr

/-- Contents of the `auth_tokens` table (the UNIQUE constraint on
`auth_token` is maintained by the operations below). -/
abbrev TokenStore := List AuthTokenRow

/-- SELECT ... FROM auth_tokens WHERE auth_token = tok (unique row). -/
def lookupAuthToken (s : TokenStore) (tok : String) : Option AuthTokenRow :=
  List.find? (fun r => r.auth_token == tok) s

/-- Embedding of `Database.save_auth_token`: INSERT a fresh row for
`(tok, phone)` with `used = FALSE` and `expires_at = now + 15 minutes`;
ON CONFLICT on the `auth_token` column (NOT the phone number) the
existing row is overwritten with the new phone, `used = FALSE` and a new
expiry. -/
def saveAuthToken (now : Nat) (tok phone : String) (s : TokenStore) : TokenStore :=
  if s.any (fun r => r.auth_token == tok) then
    s.map (fun r =>
      if r.auth_token == tok then
        { r with phone_number := phone, used := false,
                 created_at := now, expires_at := now + 900 }
      else r)
  else
    s ++ [⟨tok, phone, false, now, now + 900⟩]

/-- Embedding of `Database.check_auth_token`: SELECT the row; return
`none` when the row is missing, when `expires_at < now`, or when `used`
is set; otherwise return the phone number.  No write happens.  This is
also, verbatim, the read phase of `Database.verify_auth_token` (the two
functions share the same SELECT and the same three checks). -/
def checkAuthToken (now : Nat) (tok : String) (s : TokenStore) : Option String :=
  match lookupAuthToken s tok with
  | none => none
  | some r =>
    if r.expires_at < now then none
    else if r.used then none
    else some r.phone_number

/-- Write phase of `Database.verify_auth_token`:
UPDATE auth_tokens SET used = TRUE WHERE auth_token = tok.
The predicate tests only `auth_token`; it does NOT include `used = FALSE`. -/
def markTokenUsed (tok : String) (s : TokenStore) : TokenStore :=
  s.map (fun q => if q.auth_token == tok then { q with used := true } else q)

/-- Embedding of `Database.verify_auth_token` as executed by a single
caller without interleaving: the read phase (`checkAuthToken`) followed,
on success, by the write phase (`markTokenUsed`).  Returns the phone
number (or `none`) together with the updated table. -/
def verifyAuthToken (now : Nat) (tok : String) (s : TokenStore) :
    Option String × TokenStore :=
  match checkAuthToken now tok s with
  | none => (none, s)
  | some p => (some p, markTokenUsed tok s)

/-- Embedding of `Database.cleanup_expired_auth_tokens`:
DELETE FROM auth_tokens WHERE expires_at < now; returns the new table
and the deleted-row count. -/
def cleanupExpiredAuthTokens (now : Nat) (s : TokenStore) : TokenStore × Nat :=
  ((List.filter (fun r => !(decide (r.expires_at < now))) s),
   (List.filter (fun r => decide (r.expires_at < now)) s).length)

/-- Replay of a sequence of `verify_auth_token` calls (each given by a
call time and a token argument), threading the table through. -/
def runVerifies (ops : List (Nat × String)) (s : TokenStore) : TokenStore :=
  ops.foldl (fun t op => (verifyAuthToken op.1 op.2 t).2) s

/-! Interleaving model for concurrent `verify_auth_token` calls.
The Python function runs its SELECT-and-check phase and its UPDATE phase
as two separate statements against the shared table (the UPDATE predicate
is `auth_token = tok` only, with no `used = FALSE` condition), so under
PostgreSQL READ COMMITTED two concurrent calls may interleave between the
two phases.  A caller is a two-step program over the shared store. -/

/-- Progress of one caller through `verify_auth_token`: not started,
finished the SELECT-and-check phase with result `r`, or returned `r`. -/
inductive CallerState where
  | start : CallerState
  | readDone : Option String → CallerState
  | done : Option String → CallerState
  deriving DecidableEq, Repr

/-- One step of a caller executing `verify_auth_token now tok` against the
shared table: first the read phase (`checkAuthToken`), then the write
phase (`markTokenUsed`, executed only when the read succeeded, exactly as
in the source, where the UPDATE runs only after the checks pass). -/
def callerStep (now : Nat) (tok : String) :
    CallerState → TokenStore → CallerState × TokenStore
  | .start, s => (.readDone (checkAuthToken now tok s), s)
  | .readDone r, s => (.done r, if r.isSome then markTokenUsed tok s else s)
  | .done r, s => (.done r, s)

/-- Run two concurrent callers of `verify_auth_token now tok` under a
schedule (`true` advances caller A, `false` caller B). -/
def runSchedule (now : Nat) (tok : String) :
    List Bool → CallerState × CallerState × TokenStore →
    CallerState × CallerState × TokenStore
  | [], st => st
  | true :: rest, (a, b, s) =>
    let step := callerStep now tok a s
    runSchedule now tok rest (step.1, b, step.2)
  | false :: rest, (a, b, s) =>
    let step := callerStep now tok b s
    runSchedule now tok rest (a, step.1, step.2)

/-! Helper lemmas about the token table. -/

theorem find?_map_of_preserved (f : AuthTokenRow → AuthTokenRow)
    (hf : ∀ r, (f r).auth_token = r.auth_token) (tok : String)
    (s : List AuthTokenRow) :
    List.find? (fun r => r.auth_token == tok) (s.map f)
      = (List.find? (fun r => r.auth_token == tok) s).map f := by
  induction s with
  | nil => rfl
  | cons a l ih =>
    by_cases h : a.auth_token = tok
    · simp [List.find?_cons, hf, h]
    · simp only [List.map_cons, List.find?_cons]
      have h1 : ((f a).auth_token == tok) = false := by
        simp [hf, h]
      have h2 : (a.auth_token == tok) = false := by simp [h]
      rw [h1, h2]
      exact ih

theorem lookup_markTokenUsed (s : TokenStore) (tok tok' : String) :
    lookupAuthToken (markTokenUsed tok' s) tok
      = (lookupAuthToken s tok).map
          (fun r => if r.auth_token == tok' then { r with used := true } else r) := by
  unfold lookupAuthToken markTokenUsed
  exact find?_map_of_preserved _ (fun r => by by_cases h : r.auth_token = tok' <;> simp [h]) tok s

theorem lookup_saveAuthToken_self (now : Nat) (tok p : String) (s : TokenStore) :
    lookupAuthToken (saveAuthToken now tok p s) tok
      = some ⟨tok, p, false, now, now + 900⟩ := by
  unfold saveAuthToken
  by_cases hany : s.any (fun r => r.auth_token == tok)
  · rw [if_pos hany]
    unfold lookupAuthToken
    rw [find?_map_of_preserved _
      (fun r => by by_cases h : r.auth_token = tok <;> simp [h]) tok s]
    cases hf : List.find? (fun q => q.auth_token == tok) s with
    | none =>
      exfalso
      rcases List.any_eq_true.mp hany with ⟨r, hr, hrt⟩
      rw [List.find?_eq_none] at hf
      exact absurd hrt (by simpa using hf r hr)
    | some r' =>
      have ht : r'.auth_token = tok := by
        have := List.find?_some hf
        simpa using this
      simp [ht]
  · rw [if_neg hany]
    unfold lookupAuthToken
    have hnone : List.find? (fun r => r.auth_token == tok) s = none := by
      rw [List.find?_eq_none]
      intro x hx
      intro hxt
      exact hany (List.any_eq_true.mpr ⟨x, hx, hxt⟩)
    induction s with
    | nil => simp [List.find?_cons]
    | cons a l ih =>
      simp only [List.cons_append, List.find?_cons]
      have ha : (a.auth_token == tok) = false := by
        rcases h : (a.auth_token == tok) with _ | _
        · rfl
        · exfalso
          rw [List.find?_cons, h] at hnone
          exact Option.noConfusion hnone
      rw [ha]
      have hnone' : List.find? (fun r => r.auth_token == tok) l = none := by
        rw [List.find?_cons, ha] at hnone
        exact hnone
      have hany' : ¬ l.any (fun r => r.auth_token == tok) := by
        intro hc
        rcases List.any_eq_true.mp hc with ⟨x, hx, hxt⟩
        rw [List.find?_eq_none] at hnone'
        exact hnone' x hx hxt
      exact ih hany' hnone'

theorem lookup_saveAuthToken_other (now : Nat) (tok1 tok2 p : String)
    (s : TokenStore) (hne : tok1 ≠ tok2) :
    lookupAuthToken (saveAuthToken now tok2 p s) tok1 = lookupAuthToken s tok1 := by
  unfold saveAuthToken
  by_cases hany : s.any (fun r => r.auth_token == tok2)
  · rw [if_pos hany]
    unfold lookupAuthToken
    rw [find?_map_of_preserved _
      (fun r => by by_cases h : r.auth_token = tok2 <;> simp [h]) tok1 s]
    cases hf : List.find? (fun q => q.auth_token == tok1) s with
    | none => rfl
    | some r =>
      have ht : r.auth_token = tok1 := by
        have := List.find?_some hf
        simpa using this
      simp [ht, hne]
  · rw [if_neg hany]
    unfold lookupAuthToken
    rw [List.find?_append]
    cases hf : List.find? (fun q => q.auth_token == tok1) s with
    | none =>
      simp [List.find?_cons, Ne.symm hne]
    | some r => rfl

theorem checkAuthToken_save_self (t0 now : Nat) (tok p : String) (s : TokenStore) :
    checkAuthToken now tok (saveAuthToken t0 tok p s)
      = if t0 + 900 < now then none else some p := by
  unfold checkAuthToken
  rw [lookup_saveAuthToken_self]
  by_cases h : t0 + 900 < now <;> simp [h]

/-- Property of a table: the row for `tok` exists and its `used` flag is set. -/
def UsedRow (tok : String) (s : TokenStore) : Prop :=
  ∃ r, lookupAuthToken s tok = some r ∧ r.used = true

theorem usedRow_markTokenUsed (tok tok' : String) (s : TokenStore)
    (h : UsedRow tok s) : UsedRow tok (markTokenUsed tok' s) := by
  rcases h with ⟨r, hr, hu⟩
  rw [UsedRow, lookup_markTokenUsed, hr]
  by_cases ht : r.auth_token = tok' <;> simp [ht, hu]

theorem usedRow_verify (tok t : String) (n : Nat) (s : TokenStore)
    (h : UsedRow tok s) : UsedRow tok (verifyAuthToken n t s).2 := by
  unfold verifyAuthToken
  cases hc : checkAuthToken n t s with
  | none => exact h
  | some p => exact usedRow_markTokenUsed tok t s h

theorem usedRow_runVerifies (ops : List (Nat × String)) (tok : String)
    (s : TokenStore) (h : UsedRow tok s) : UsedRow tok (runVerifies ops s) := by
  induction ops generalizing s with
  | nil => exact h
  | cons op rest ih =>
    have hstep : UsedRow tok (verifyAuthToken op.1 op.2 s).2 :=
      usedRow_verify tok op.2 op.1 s h
    exact ih _ hstep

theorem verify_fst_eq_check (now : Nat) (tok : String) (s : TokenStore) :
    (verifyAuthToken now tok s).1 = checkAuthToken now tok s := by
  unfold verifyAuthToken
  cases checkAuthToken now tok s <;> rfl

theorem check_none_of_usedRow (now : Nat) (tok : String) (s : TokenStore)
    (h : UsedRow tok s) : checkAuthToken now tok s = none := by
  rcases h with ⟨r, hr, hu⟩
  unfold checkAuthToken
  rw [hr]
  by_cases hexp : r.expires_at < now <;> simp [hexp, hu]

/-- C1: a link token issued by `save_auth_token` is consumed exactly once.
The first `verify_auth_token` call before the token's expiry returns the
associated phone number; after it, the row's `used` flag is `true` and
stays `true` through any further sequence of `verify_auth_token` calls,
so every subsequent `verify_auth_token` on the same token returns `none`. -/
theorem consume_exactly_once (s : TokenStore) (t0 now now' : Nat)
    (tok p : String) (ops : List (Nat × String))
    (hexp : ¬ (t0 + 900 < now)) :
    (verifyAuthToken now tok (saveAuthToken t0 tok p s)).1 = some p ∧
    (verifyAuthToken now' tok
        (runVerifies ops
          (verifyAuthToken now tok (saveAuthToken t0 tok p s)).2)).1 = none := by
  have hc : checkAuthToken now tok (saveAuthToken t0 tok p s) = some p := by
    rw [checkAuthToken_save_self]
    simp [hexp]
  have hv : verifyAuthToken now tok (saveAuthToken t0 tok p s)
      = (some p, markTokenUsed tok (saveAuthToken t0 tok p s)) := by
    unfold verifyAuthToken
    rw [hc]
  constructor
  · rw [hv]
  · have hu : UsedRow tok (verifyAuthToken now tok (saveAuthToken t0 tok p s)).2 := by
      rw [hv]
      refine ⟨⟨tok, p, true, t0, t0 + 900⟩, ?_, rfl⟩
      rw [lookup_markTokenUsed, lookup_saveAuthToken_self]
      simp
    have hu' := usedRow_runVerifies ops tok _ hu
    have hcn := check_none_of_usedRow now' tok _ hu'
    rw [verify_fst_eq_check, hcn]

/-- Instantiation of `consume_exactly_once` at a concrete table: token
"t" for phone "p" issued at time 0, consumed at time 5, re-consumed at
times 6 and 7. -/
theorem consume_exactly_once_witness :
    ¬ (0 + 900 < 5) ∧
    ((verifyAuthToken 5 "t" (saveAuthToken 0 "t" "p" [])).1 = some "p" ∧
     (verifyAuthToken 7 "t"
        (runVerifies [(6, "t")]
          (verifyAuthToken 5 "t" (saveAuthToken 0 "t" "p" [])).2)).1 = none) :=
  ⟨by decide, consume_exactly_once [] 0 5 7 "t" "p" [(6, "t")] (by decide)⟩

/-- C2: counterexample to linearizability of `verify_auth_token`.  The
source runs the validity check (SELECT with `used`-flag test) and the
write (UPDATE with only `auth_token` in its predicate) as two separate
statements, so under the interleaving A-read, B-read, A-write, B-write
BOTH concurrent callers of `verify_auth_token 5 "t"` return the phone
number: two successes instead of the exactly-one the claim requires. -/
theorem concurrent_consume_double_success :
    (runSchedule 5 "t" [true, false, true, false]
        (.start, .start, saveAuthToken 0 "t" "p" [])).1
      = .done (some "p") ∧
    (runSchedule 5 "t" [true, false, true, false]
        (.start, .start, saveAuthToken 0 "t" "p" [])).2.1
      = .done (some "p") := by
  constructor <;> rfl

/-- C3 counterexample: issuing a second token "t2" for phone "p" does NOT
invalidate the outstanding token "t1" — `save_auth_token`'s upsert
conflicts on the `auth_token` column, not on the phone number.  With "t1"
issued at time 0 and "t2" issued for the same phone at time 10,
`check_auth_token` ("peek") still returns the phone for "t1" at time 20,
where the claim requires absent. -/
theorem reissue_leaves_old_token_valid_cex :
    checkAuthToken 20 "t1"
        (saveAuthToken 10 "t2" "p" (saveAuthToken 0 "t1" "p" [])) = some "p" ∧
    checkAuthToken 20 "t1"
        (saveAuthToken 10 "t2" "p" (saveAuthToken 0 "t1" "p" [])) ≠ none := by
  constructor <;> decide

/-- C3 amended: issuing a token under a DIFFERENT token string leaves
every other token row untouched — in particular a prior outstanding token
for the same phone number stays valid; only re-issuing the very same
token string overwrites a row. -/
theorem reissue_preserves_other_tokens (now now' : Nat) (tok1 tok2 p : String)
    (s : TokenStore) (hne : tok1 ≠ tok2) :
    checkAuthToken now' tok1 (saveAuthToken now tok2 p s)
      = checkAuthToken now' tok1 s := by
  unfold checkAuthToken
  rw [lookup_saveAuthToken_other now tok1 tok2 p s hne]

/-- Instantiation of `reissue_preserves_other_tokens`: after issuing "t1"
for "p" and then "t2" for the same phone, peeking "t1" at time 20 gives
the same result as before the re-issue, namely the phone number. -/
theorem reissue_preserves_other_tokens_witness :
    "t1" ≠ "t2" ∧
    checkAuthToken 20 "t1"
        (saveAuthToken 10 "t2" "p" (saveAuthToken 0 "t1" "p" []))
      = checkAuthToken 20 "t1" (saveAuthToken 0 "t1" "p" []) :=
  ⟨by decide,
   reissue_preserves_other_tokens 10 20 "t1" "t2" "p"
     (saveAuthToken 0 "t1" "p" []) (by decide)⟩

/-- C5 counterexample: at the exact expiry instant the token is still
accepted.  Token "t" issued at time 0 expires at 0 + 900 = 900; the
source rejects only when `expires_at < now`, so a peek and a consume at
`now = 900` both return the phone number, where the claim ("at or after
its expiry") requires absent. -/
theorem expiry_boundary_cex :
    checkAuthToken 900 "t" (saveAuthToken 0 "t" "p" []) = some "p" ∧
    (verifyAuthToken 900 "t" (saveAuthToken 0 "t" "p" [])).1 = some "p" := by
  constructor <;> decide

/-- C5 amended: a token whose expiry lies STRICTLY before the call time is
always rejected by both `check_auth_token` and `verify_auth_token`,
regardless of its `used` flag (no hypothesis on `r.used`). -/
theorem rejected_strictly_after_expiry (now : Nat) (tok : String)
    (s : TokenStore) (r : AuthTokenRow)
    (hl : lookupAuthToken s tok = some r) (hexp : r.expires_at < now) :
    checkAuthToken now tok s = none ∧
    (verifyAuthToken now tok s).1 = none := by
  have hc : checkAuthToken now tok s = none := by
    unfold checkAuthToken
    rw [hl]
    simp [hexp]
  refine ⟨hc, ?_⟩
  rw [verify_fst_eq_check, hc]

/-- Instantiation of `rejected_strictly_after_expiry` on an unused row
whose expiry 900 lies before the call time 901. -/
theorem rejected_strictly_after_expiry_witness :
    lookupAuthToken [⟨"t", "p", false, 0, 900⟩] "t" = some ⟨"t", "p", false, 0, 900⟩ ∧
    900 < 901 ∧
    (checkAuthToken 901 "t" [⟨"t", "p", false, 0, 900⟩] = none ∧
     (verifyAuthToken 901 "t" [⟨"t", "p", false, 0, 900⟩]).1 = none) :=
  ⟨by decide, by decide,
   rejected_strictly_after_expiry 901 "t" [⟨"t", "p", false, 0, 900⟩]
     ⟨"t", "p", false, 0, 900⟩ (by decide) (by decide)⟩

/-! Credential model: the `oauth_tokens` table and the google-auth
`Credentials` object as used by `phone_based_auth.py` and `auth_web.py`. -/

/-- Row of the `oauth_tokens` table (`Database.create_tables`):
`user_id`, `access_token NOT NULL`, `refresh_token` (nullable),
`token_expiry`, `scope` (nullable), `created_at`.  The `id` and
`updated_at` columns are never read and are not modelled. -/
structure OauthRow where
  user_id : Nat
  access_token : String
  refresh_token : Option String
  token_expiry : Nat
  scope : Option String
  created_at : Nat
  deriving DecidableEq, Repr

/-- Scope list `SCOPES` defined identically in `phone_based_auth.py` and
`auth_web.py`. -/
def defaultScopes : List String :=
  ["https://www.googleapis.com/auth/gmail.readonly",
   "https://www.googleapis.com/auth/gmail.send",
   "https://www.googleapis.com/auth/gmail.compose"]

/-- Model of `google.oauth2.credentials.Credentials` as far as the broker
reads it: the access token, the optional refresh token, the scopes and
the optional expiry.  The `token` column is NOT NULL, so `token` is
always a plain string here. -/
structure GCredentials where
  token : String
  refresh_token : Option String
  scopes : List String
  expiry : Option Nat
  deriving DecidableEq, Repr

/-- Refresh threshold used by google-auth when deciding `expired`
(REFRESH_THRESHOLD, 3 minutes 45 seconds).  No claim below depends on its
exact value; what matters is the documented rule that a credential with
`expiry = None` is NEVER considered expired. -/
def refreshThreshold : Nat := 225

/-- Modelled from google-auth: `Credentials.expired` is `False` whenever
`expiry` is unset, otherwise it compares the current time against the
expiry minus the refresh threshold. -/
def GCredentials.isExpired (c : GCredentials) (now : Nat) : Bool :=
  match c.expiry with
  | none => false
  | some e => decide (e ≤ now + refreshThreshold)

/-- Modelled from google-auth: `Credentials.valid` is `token is not None
and not expired`; the token is always present here (NOT NULL column). -/
def GCredentials.isValid (c : GCredentials) (now : Nat) : Bool :=
  !(c.isExpired now)

/-- Embedding of `PhoneBasedGmailAuth._tokens_to_credentials`
(phone_based_auth.py:220-233): builds a `Credentials` object from a
database row.  The constructor call passes token, refresh token and
scopes but NOT the stored `token_expiry`, so the resulting credential has
`expiry = none`. -/
def tokensToCredentials (td : OauthRow) : GCredentials :=
  { token := td.access_token,
    refresh_token := td.refresh_token,
    scopes := match td.scope with
              | some sc => sc.splitOn " "
              | none => defaultScopes,
    expiry := none }

/-- Credential reconstruction in `GmailWebAuth.get_credentials`
(auth_web.py:101-109): same fields as `tokensToCredentials` but this
variant DOES pass `expiry=token_data['token_expiry']`. -/
def webTokensToCredentials (td : OauthRow) : GCredentials :=
  { token := td.access_token,
    refresh_token := td.refresh_token,
    scopes := match td.scope with
              | some sc => sc.splitOn " "
              | none => defaultScopes,
    expiry := some td.token_expiry }

/-- Fold step for ORDER BY created_at DESC LIMIT 1: keep the row with the
largest `created_at` (the first such row on ties, which SQL leaves
unspecified). -/
def latestRow : Option OauthRow → OauthRow → Option OauthRow
  | none, r => some r
  | some a, r => if a.created_at < r.created_at then some r else some a

/-- Embedding of `Database.get_oauth_tokens`: SELECT the row for the user
with the newest `created_at`, or `none`. -/
def getOauthTokens (uid : Nat) (s : List OauthRow) : Option OauthRow :=
  (s.filter (fun r => r.user_id == uid)).foldl latestRow none

/-- Embedding of `Database.save_oauth_tokens` (database.py:156-181):
within one transaction, DELETE every `oauth_tokens` row of the user, then
INSERT the single new row. -/
def saveOauthTokens (now uid : Nat) (tok : String) (rtok : Option String)
    (exp : Nat) (scope : Option String) (s : List OauthRow) : List OauthRow :=
  (s.filter (fun r => !(r.user_id == uid))) ++ [⟨uid, tok, rtok, exp, scope, now⟩]

/-- Embedding of `Database.update_oauth_tokens`: UPDATE access token and
expiry on every row of the user (user id is the whole predicate). -/
def updateOauthTokens (uid : Nat) (tok : String) (exp : Nat)
    (s : List OauthRow) : List OauthRow :=
  s.map (fun r =>
    if r.user_id == uid then { r with access_token := tok, token_expiry := exp }
    else r)

/-- Embedding of `Database.delete_oauth_tokens` (database.py:210-223):
DELETE every row of the user; returns `TRUE` whether or not a row
existed (the row count is never inspected). -/
def deleteOauthTokens (uid : Nat) (s : List OauthRow) : List OauthRow :=
  s.filter (fun r => !(r.user_id == uid))

/-- Embedding of `GmailWebAuth.logout` (auth_web.py:130-134): with a user
id set it calls `delete_oauth_tokens` (which reports `True`); without one
it returns `False`. -/
def webLogout (uid : Option Nat) (s : List OauthRow) : Bool × List OauthRow :=
  match uid with
  | none => (false, s)
  | some u => (true, deleteOauthTokens u s)

/-- Embedding of `PhoneBasedGmailAuth.get_credentials`
(phone_based_auth.py:177-218) after the identity has been resolved to a
user id.  `refreshOutcome` is the oracle for `creds.refresh(Request())`:
`some (tok, exp)` is a successful provider exchange, `none` a raised
exception (swallowed by the function's enclosing try/except, which turns
every failure into `None`).  Control flow of the source: return the
stored credential as-is when `valid`; when invalid, refresh if expired
with a refresh token present (persisting the new access token), else
return `None`. -/
def phoneGetCredentials (now uid : Nat) (store : List OauthRow)
    (refreshOutcome : Option (String × Nat)) :
    Option GCredentials × List OauthRow :=
  match getOauthTokens uid store with
  | none => (none, store)
  | some td =>
    let creds := tokensToCredentials td
    if creds.isValid now then (some creds, store)
    else if creds.isExpired now && creds.refresh_token.isSome then
      match refreshOutcome with
      | none => (none, store)
      | some (t, e) =>
        (some { creds with token := t, expiry := some e },
         updateOauthTokens uid t e store)
    else (none, store)

/-- Body of `PhoneBasedGmailAuth.get_credentials` with failure-capable
collaborators: `dbOutcome` models `db.get_oauth_tokens` (which can raise
a storage error), `refreshOutcome` models `creds.refresh(Request())`.
An `Except.error` value is an exception crossing that call. -/
def phoneGetCredentialsBody (now : Nat)
    (dbOutcome : Except Unit (Option OauthRow))
    (refreshOutcome : Except Unit (String × Nat)) :
    Except Unit (Option GCredentials) :=
  match dbOutcome with
  | .error e => .error e
  | .ok none => .ok none
  | .ok (some td) =>
    let creds := tokensToCredentials td
    if creds.isValid now then .ok (some creds)
    else if creds.isExpired now && creds.refresh_token.isSome then
      match refreshOutcome with
      | .error e => .error e
      | .ok (t, e) => .ok (some { creds with token := t, expiry := some e })
    else .ok none

/-- Embedding of `PhoneBasedGmailAuth.get_credentials` including its
enclosing try/except (phone_based_auth.py:187-218): any exception raised
inside the body is caught and turned into `None`. -/
def phoneGetCredentialsSafe (now : Nat)
    (dbOutcome : Except Unit (Option OauthRow))
    (refreshOutcome : Except Unit (String × Nat)) : Option GCredentials :=
  match phoneGetCredentialsBody now dbOutcome refreshOutcome with
  | .error _ => none
  | .ok r => r

/-- Embedding of `GmailWebAuth.get_credentials` (auth_web.py:91-124).
There is NO enclosing try/except: only the `creds.refresh(Request())`
call is wrapped (auth_web.py:114-120), so a storage error raised by
`db.get_oauth_tokens` propagates to the caller as `Except.error`.  This
variant passes the stored expiry into the credential. -/
def webGetCredentials (now : Nat) (uid : Option Nat)
    (dbOutcome : Except Unit (Option OauthRow))
    (refreshOutcome : Except Unit (String × Nat)) :
    Except Unit (Option GCredentials) :=
  match uid with
  | none => .ok none
  | some _ =>
    match dbOutcome with
    | .error e => .error e
    | .ok none => .ok none
    | .ok (some td) =>
      let creds := webTokensToCredentials td
      if creds.isValid now then .ok (some creds)
      else if creds.isExpired now && creds.refresh_token.isSome then
        match refreshOutcome with
        | .error _ => .ok none
        | .ok (t, e) => .ok (some { creds with token := t, expiry := some e })
      else .ok none

/-- C4: `get_credentials` in the phone-based variant returns whatever row
is stored, unrefreshed and with NO expiry attached, because
`_tokens_to_credentials` drops the stored `token_expiry`; the credential
therefore always counts as valid and the refresh branch is unreachable.
In particular a row whose stored expiry is long past is returned as-is
instead of being refreshed or rejected. -/
theorem get_credentials_drops_expiry (now uid : Nat) (store : List OauthRow)
    (oracle : Option (String × Nat)) (td : OauthRow)
    (h : getOauthTokens uid store = some td) :
    (phoneGetCredentials now uid store oracle).1 = some (tokensToCredentials td) ∧
    (tokensToCredentials td).expiry = none := by
  have hval : (tokensToCredentials td).isValid now = true := by
    simp [tokensToCredentials, GCredentials.isValid, GCredentials.isExpired]
  constructor
  · unfold phoneGetCredentials
    rw [h]
    simp [hval]
  · rfl

/-- Instantiation of `get_credentials_drops_expiry`: user 1 has a stored
access token "stale" whose recorded expiry 5 lies far before the call
time 100000; the call still returns that token as a credential with no
expiry. -/
theorem get_credentials_drops_expiry_witness :
    getOauthTokens 1 [⟨1, "stale", some "r", 5, none, 0⟩]
      = some ⟨1, "stale", some "r", 5, none, 0⟩ ∧
    ((phoneGetCredentials 100000 1 [⟨1, "stale", some "r", 5, none, 0⟩] none).1
        = some (tokensToCredentials ⟨1, "stale", some "r", 5, none, 0⟩) ∧
     (tokensToCredentials ⟨1, "stale", some "r", 5, none, 0⟩).expiry = none) :=
  ⟨by decide,
   get_credentials_drops_expiry 100000 1 [⟨1, "stale", some "r", 5, none, 0⟩]
     none ⟨1, "stale", some "r", 5, none, 0⟩ (by decide)⟩

/-- C6 counterexample: in the web variant a storage error inside
`get_credentials` is NOT degraded to `NEEDS_AUTH` — there is no enclosing
try/except in `GmailWebAuth.get_credentials`, so the raw exception from
`db.get_oauth_tokens` propagates to the caller. -/
theorem web_get_credentials_propagates_storage_error :
    webGetCredentials 100 (some 1) (.error ()) (.ok ("x", 200))
      = .error () := by rfl

/-- C6 amended: in the phone-based variant every internal failure is
caught and resolves to `None` (storage error, refresh failure, and any
other exception of the body); in the web variant a refresh failure on an
expired credential with a refresh token resolves to `None`, but storage
errors propagate. -/
theorem get_credentials_failure_modes (now : Nat)
    (db : Except Unit (Option OauthRow)) (refr refr' : Except Unit (String × Nat))
    (td : OauthRow) (uid : Nat)
    (hbody : (phoneGetCredentialsBody now db refr).isOk = false)
    (hexpired : (webTokensToCredentials td).isValid now = false)
    (hrt : td.refresh_token.isSome = true) :
    phoneGetCredentialsSafe now db refr = none ∧
    phoneGetCredentialsSafe now (.error ()) refr' = none ∧
    webGetCredentials now (some uid) (.ok (some td)) (.error ()) = .ok none := by
  refine ⟨?_, rfl, ?_⟩
  · unfold phoneGetCredentialsSafe
    cases h : phoneGetCredentialsBody now db refr with
    | error e => rfl
    | ok r =>
      rw [h] at hbody
      exact absurd hbody (by simp [Except.isOk, Except.toBool])
  · have hexp : (webTokensToCredentials td).isExpired now = true := by
      have h := hexpired
      simp [GCredentials.isValid] at h
      exact h
    unfold webGetCredentials
    simp [hexpired, hexp, hrt]

/-- Instantiation of `get_credentials_failure_modes`: a storage error in
the phone variant yields `None`, and a refresh failure in the web variant
on user 1's long-expired credential yields `ok None`. -/
theorem get_credentials_failure_modes_witness :
    ((phoneGetCredentialsBody 100000 (.error ()) (.ok ("x", 1))).isOk = false ∧
     (webTokensToCredentials ⟨1, "a", some "r", 5, none, 0⟩).isValid 100000 = false ∧
     (⟨1, "a", some "r", 5, none, 0⟩ : OauthRow).refresh_token.isSome = true) ∧
    (phoneGetCredentialsSafe 100000 (.error ()) (.ok ("x", 1)) = none ∧
     phoneGetCredentialsSafe 100000 (.error ()) (.ok ("y", 2)) = none ∧
     webGetCredentials 100000 (some 1) (.ok (some ⟨1, "a", some "r", 5, none, 0⟩))
        (.error ()) = .ok none) :=
  ⟨⟨by decide, by decide, by decide⟩,
   get_credentials_failure_modes 100000 (.error ()) (.ok ("x", 1)) (.ok ("y", 2))
     ⟨1, "a", some "r", 5, none, 0⟩ 1 (by decide) (by decide) (by decide)⟩

/-! Credential-store operation sequences, for the one-row-per-user
invariant. -/

/-- One call against the `oauth_tokens` table: `save_oauth_tokens`,
`update_oauth_tokens` or `delete_oauth_tokens`. -/
inductive CredOp where
  | save (now uid : Nat) (tok : String) (rtok : Option String)
         (exp : Nat) (scope : Option String)
  | update (uid : Nat) (tok : String) (exp : Nat)
  | del (uid : Nat)

/-- Apply one store call. -/
def applyCredOp (op : CredOp) (s : List OauthRow) : List OauthRow :=
  match op with
  | .save now uid tok rtok exp scope => saveOauthTokens now uid tok rtok exp scope s
  | .update uid tok exp => updateOauthTokens uid tok exp s
  | .del uid => deleteOauthTokens uid s

/-- Replay a sequence of store calls against the initially empty table. -/
def runCredOps (ops : List CredOp) : List OauthRow :=
  ops.foldl (fun s op => applyCredOp op s) []

/-- Number of `oauth_tokens` rows belonging to a user. -/
def countRowsFor (uid : Nat) (s : List OauthRow) : Nat :=
  (s.filter (fun r => r.user_id == uid)).length

theorem countRowsFor_filter_le (uid : Nat) (q : OauthRow → Bool)
    (s : List OauthRow) :
    countRowsFor uid (s.filter q) ≤ countRowsFor uid s := by
  unfold countRowsFor
  exact List.Sublist.length_le (List.Sublist.filter _ (List.filter_sublist s))

theorem countRowsFor_save (now uid uid' : Nat) (tok : String)
    (rtok : Option String) (exp : Nat) (scope : Option String)
    (s : List OauthRow) (h : countRowsFor uid s ≤ 1) :
    countRowsFor uid (saveOauthTokens now uid' tok rtok exp scope s) ≤ 1 := by
  unfold saveOauthTokens countRowsFor
  rw [List.filter_append, List.length_append]
  by_cases he : uid = uid'
  · subst he
    have hz : (s.filter (fun r => !(r.user_id == uid))).filter
        (fun r => r.user_id == uid) = [] := by
      rw [List.filter_eq_nil]
      intro a ha
      have := (List.mem_filter.mp ha).2
      simp at this ⊢
      exact this
    rw [hz]
    simp
  · have h1 : countRowsFor uid (s.filter (fun r => !(r.user_id == uid'))) ≤ 1 :=
      le_trans (countRowsFor_filter_le uid _ s) h
    have h2 : (List.filter (fun r => r.user_id == uid)
        [(⟨uid', tok, rtok, exp, scope, now⟩ : OauthRow)]).length = 0 := by
      simp [List.filter_cons, Ne.symm he]
    unfold countRowsFor at h1
    omega

theorem filter_userid_map (f : OauthRow → OauthRow)
    (hf : ∀ r, (f r).user_id = r.user_id) (uid : Nat) (s : List OauthRow) :
    (s.map f).filter (fun r => r.user_id == uid)
      = (s.filter (fun r => r.user_id == uid)).map f := by
  induction s with
  | nil => rfl
  | cons a l ih =>
    by_cases h : a.user_id = uid
    · simp [List.filter_cons, hf, h, ih]
    · simp only [List.map_cons, List.filter_cons]
      have h1 : ((f a).user_id == uid) = false := by simp [hf, h]
      have h2 : (a.user_id == uid) = false := by simp [h]
      rw [h1, h2, ih]
      simp

theorem countRowsFor_update (uid uid' : Nat) (tok : String) (exp : Nat)
    (s : List OauthRow) :
    countRowsFor uid (updateOauthTokens uid' tok exp s) = countRowsFor uid s := by
  unfold countRowsFor updateOauthTokens
  rw [filter_userid_map _
    (fun r => by by_cases h : r.user_id = uid' <;> simp [h]) uid s]
  simp

/-- C7: starting from the empty table, every sequence of
`save_oauth_tokens`, `update_oauth_tokens` and `delete_oauth_tokens`
calls leaves at most one `oauth_tokens` row per user id — `save` deletes
the user's rows and inserts exactly one inside a single transaction,
`update` rewrites rows in place, `delete` only removes. -/
theorem at_most_one_credential_row (ops : List CredOp) (uid : Nat) :
    countRowsFor uid (runCredOps ops) ≤ 1 := by
  suffices h : ∀ (s : List OauthRow), (∀ u, countRowsFor u s ≤ 1) →
      ∀ u, countRowsFor u (ops.foldl (fun t op => applyCredOp op t) s) ≤ 1 by
    exact h [] (fun _ => by simp [countRowsFor]) uid
  induction ops with
  | nil => intro s hs u; exact hs u
  | cons op rest ih =>
    intro s hs u
    simp only [List.foldl_cons]
    refine ih (applyCredOp op s) ?_ u
    intro v
    cases op with
    | save now uid' tok rtok exp scope =>
      exact countRowsFor_save now v uid' tok rtok exp scope s (hs v)
    | update uid' tok exp =>
      rw [applyCredOp, countRowsFor_update]
      exact hs v
    | del uid' =>
      exact le_trans (countRowsFor_filter_le v _ s) (hs v)

theorem filter_self_of_delete (uid : Nat) (s : List OauthRow) :
    (deleteOauthTokens uid s).filter (fun r => r.user_id == uid) = [] := by
  rw [List.filter_eq_nil]
  intro a ha
  have := (List.mem_filter.mp ha).2
  simp at this ⊢
  exact this

/-- C8: `logout` is idempotent — deleting a user's rows twice equals
deleting once, and `delete_oauth_tokens` reports success whether or not a
row existed (the web `logout` returns `True` for any user id it is given,
including over the empty table) — and after a logout the user has no
stored row, so `get_credentials` resolves to `None` (`NEEDS_AUTH`). -/
theorem logout_idempotent_then_needs_auth (s : List OauthRow)
    (uid now : Nat) (oracle : Option (String × Nat)) :
    deleteOauthTokens uid (deleteOauthTokens uid s) = deleteOauthTokens uid s ∧
    (webLogout (some uid) s).1 = true ∧
    getOauthTokens uid (deleteOauthTokens uid s) = none ∧
    (phoneGetCredentials now uid (deleteOauthTokens uid s) oracle).1 = none := by
  have hget : getOauthTokens uid (deleteOauthTokens uid s) = none := by
    unfold getOauthTokens
    rw [filter_self_of_delete]
    rfl
  refine ⟨?_, rfl, hget, ?_⟩
  · unfold deleteOauthTokens
    rw [List.filter_filter]
    apply List.filter_congr
    intro a _
    cases h : a.user_id == uid <;> rfl
  · unfold phoneGetCredentials
    rw [hget]

/-! Retry-on-401 structure of `GmailService` (gmail_service.py).  Each of
`get_messages`, `send_message` and `list_contacts` wraps its provider
call in `except HttpError: if status == 401 and self.authenticate(...):
return self.<same method>(...)`; the retry is a full recursive call with
no retry counter. -/

/-- Outcome of one provider API call. -/
inductive ApiResult where
  | ok : ApiResult
  | unauthorized : ApiResult
  | otherErr : ApiResult
  deriving DecidableEq, Repr

/-- Number of provider API calls one caller-initiated `get_messages`
performs, given an oracle of per-attempt provider responses and an
oracle of re-authentication outcomes.  Mirrors the source: a success or
a non-401 error returns after the single call; a 401 re-authenticates
and, when that succeeds, recursively re-runs the whole method. -/
def gmailApiAttempts : List ApiResult → List Bool → Nat
  | [], _ => 0
  | .ok :: _, _ => 1
  | .otherErr :: _, _ => 1
  | .unauthorized :: rest, auths =>
    match auths with
    | [] => 1
    | a :: auths' => if a then 1 + gmailApiAttempts rest auths' else 1

/-- C9 counterexample: with the provider answering 401 twice and
re-authentication succeeding each time, a single caller-initiated
`get_messages` performs 3 API calls — two retries, where the claim allows
at most one retry (at most 2 calls). -/
theorem retry_twice_cex :
    gmailApiAttempts [.unauthorized, .unauthorized, .ok] [true, true] = 3 ∧
    ¬ (gmailApiAttempts [.unauthorized, .unauthorized, .ok] [true, true] ≤ 2) := by
  constructor <;> decide

/-- C9 amended: the 401 handler retries by unbounded recursion.  A run
stops after one call on success, on a non-401 error, or when
re-authentication fails; but every 401 answered by a successful
re-authentication adds another full attempt, so n consecutive 401s with
succeeding re-authentication yield n + 1 API calls. -/
theorem retry_recursion_unbounded (n : Nat) (rest : List ApiResult)
    (auths : List Bool) :
    gmailApiAttempts (List.replicate n .unauthorized ++ .ok :: rest)
        (List.replicate n true ++ auths) = n + 1 ∧
    gmailApiAttempts (.ok :: rest) auths = 1 ∧
    gmailApiAttempts (.otherErr :: rest) auths = 1 ∧
    gmailApiAttempts (.unauthorized :: rest) (false :: auths) = 1 := by
  refine ⟨?_, rfl, rfl, rfl⟩
  induction n with
  | zero => rfl
  | succ m ih =>
    simp only [List.replicate_succ, List.cons_append, gmailApiAttempts]
    simp [List.append_eq, ih]
    omega

/-- Embedding of `PhoneBasedGmailAuth.complete_oauth_flow`
(phone_based_auth.py:121-175): FIRST `verify_auth_token` consumes the
link token (marking it used); only then does `flow.fetch_token` exchange
the authorization code (`exchangeOk` oracle: `false` means the exchange
raised, caught by the enclosing try/except which returns `False`), and on
success `save_oauth_tokens` stores the credential (`saveOk` is its
return value, which is also the method's return value). -/
def completeOauthFlow (now : Nat) (tok : String) (s : TokenStore)
    (exchangeOk saveOk : Bool) : Bool × TokenStore :=
  match verifyAuthToken now tok s with
  | (none, s2) => (false, s2)
  | (some _, s2) => if exchangeOk then (saveOk, s2) else (false, s2)

theorem verify_some_elim (now : Nat) (tok p : String) (s s' : TokenStore)
    (h : verifyAuthToken now tok s = (some p, s')) :
    checkAuthToken now tok s = some p ∧ s' = markTokenUsed tok s := by
  unfold verifyAuthToken at h
  cases hc : checkAuthToken now tok s with
  | none =>
    rw [hc] at h
    simp at h
  | some q =>
    rw [hc] at h
    have h1 := congrArg Prod.fst h
    have h2 := congrArg Prod.snd h
    simp at h1 h2
    exact ⟨by rw [h1], h2.symm⟩

theorem usedRow_of_verify_some (now : Nat) (tok p : String) (s s' : TokenStore)
    (h : verifyAuthToken now tok s = (some p, s')) : UsedRow tok s' := by
  rcases verify_some_elim now tok p s s' h with ⟨hc, hs⟩
  unfold checkAuthToken at hc
  cases hl : lookupAuthToken s tok with
  | none => rw [hl] at hc; exact absurd hc (by simp)
  | some r =>
    have ht : r.auth_token = tok := by
      unfold lookupAuthToken at hl
      have := List.find?_some hl
      simpa using this
    subst hs
    refine ⟨{ r with used := true }, ?_, rfl⟩
    rw [lookup_markTokenUsed, hl]
    simp [ht]

/-- C10: `complete_oauth_flow` consumes the link token before the
authorization-code exchange.  Whenever `verify_auth_token` succeeds but
the exchange then fails, the call returns `False`, yet the token row is
already marked used in the resulting table, so a retry of
`complete_oauth_flow` with the same link token — at any later time, with
any exchange or save outcome — returns `False` as well. -/
theorem token_burned_on_failed_exchange (s s' : TokenStore)
    (now now' : Nat) (tok p : String) (saveOk e' sv' : Bool)
    (h : verifyAuthToken now tok s = (some p, s')) :
    completeOauthFlow now tok s false saveOk = (false, s') ∧
    UsedRow tok s' ∧
    (completeOauthFlow now' tok s' e' sv').1 = false := by
  have hu : UsedRow tok s' := usedRow_of_verify_some now tok p s s' h
  refine ⟨?_, hu, ?_⟩
  · unfold completeOauthFlow
    rw [h]
    simp
  · have hc := check_none_of_usedRow now' tok s' hu
    have hv : verifyAuthToken now' tok s' = (none, s') := by
      unfold verifyAuthToken
      rw [hc]
    unfold completeOauthFlow
    rw [hv]

/-- Instantiation of `token_burned_on_failed_exchange`: token "t" issued
at time 0, verified at time 5 inside a `complete_oauth_flow` whose code
exchange fails; the retry at time 6 with a succeeding exchange still
fails. -/
theorem token_burned_on_failed_exchange_witness :
    verifyAuthToken 5 "t" (saveAuthToken 0 "t" "p" [])
      = (some "p", [⟨"t", "p", true, 0, 900⟩]) ∧
    (completeOauthFlow 5 "t" (saveAuthToken 0 "t" "p" []) false true
        = (false, [⟨"t", "p", true, 0, 900⟩]) ∧
     UsedRow "t" [⟨"t", "p", true, 0, 900⟩] ∧
     (completeOauthFlow 6 "t" [⟨"t", "p", true, 0, 900⟩] true true).1 = false) :=
  ⟨by decide,
   token_burned_on_failed_exchange (saveAuthToken 0 "t" "p" [])
     [⟨"t", "p", true, 0, 900⟩] 5 6 "t" "p" true true true (by decide)⟩

end GmailBroker
